import Mathlib

/-!
# Verification of the hospital-mcp-server scheduling core

Shallow embedding of the MongoDB-backed hospital management MCP server
(src/main.py, src/init_db.py).  Documents are Lean structures, a collection is
a `List` of documents, and each exposed tool becomes a pure function from the
database state (plus the call arguments and the ambient clock `now`) to a
result and a new state.

Modelling conventions, fixed once for the whole file:
* Mongo `ObjectId`s are opaque; we model them as `Nat`.  `insert_one` lets the
  store mint a fresh id: the state carries `nextId`, every insert uses it and
  bumps it (mirroring the store-generated `_id`).
* `datetime` values are minute-precision instants modelled as `Nat` (minutes
  since an epoch); `timedelta(days=d)` is `d * 1440` minutes.  The string
  arguments `appointment_date`/`appointment_time` are abstracted into the
  already-parsed instant that `datetime.strptime` produces on well-formed
  input.
* `find_one(filter)` is `List.find?` with the filter as a boolean predicate
  (first match); `update_one(filter, {$set: patch})` rewrites the first
  matching document; `modified_count == 0` holds exactly when no document
  matched or the patch left the matched document unchanged, which is Mongo's
  semantics for `$set`.
* Python truthiness on optional string arguments (`if email:`) skips both
  `None` and the empty string; `truthy` captures this.
* Each tool returns a dict that is either `{"error": msg}` or a success
  payload; we model it as `Except ErrMsg payload`.  The distinct error
  message strings of the source become the constructors of `ErrMsg`.
-/

abbrev DocId := Nat

abbrev DateTime := Nat

/-- Appointment status values used by src/main.py
("scheduled" / "confirmed" / "completed" / "cancelled"). -/
inductive Status where
  | scheduled
  | confirmed
  | completed
  | cancelled
deriving DecidableEq, Repr

/-- The active statuses `["scheduled", "confirmed"]` that every conflict
query filters on (`status: {$in: ["scheduled", "confirmed"]}`). -/
def Status.isActive : Status → Bool
  | .scheduled => true
  | .confirmed => true
  | _ => false

/-- Patient document (fields written by `register_patient`, src/main.py). -/
structure Patient where
  id : DocId
  name : String
  age : Nat
  gender : String
  contact : String
  email : Option String := none
  address : Option String := none
  blood_group : Option String := none
  emergency_contact : Option String := none
  allergies : Option String := none
  created_at : Nat := 0
  updated_at : Nat := 0
deriving DecidableEq, Repr

/-- Doctor document (fields relevant to the tools; see src/init_db.py seed). -/
structure Doctor where
  id : DocId
  name : String
  specialization : String
  department : String
deriving DecidableEq, Repr

/-- Appointment document (fields written by `book_appointment`,
`reschedule_appointment` and `cancel_appointment`, src/main.py). -/
structure Appointment where
  id : DocId
  patient_id : DocId
  patient_name : String
  doctor_id : DocId
  doctor_name : String
  appointment_datetime : DateTime
  reason : String
  symptoms : Option String := none
  status : Status
  created_at : Nat := 0
  updated_at : Option Nat := none
  cancelled_at : Option Nat := none
  cancellation_reason : Option String := none
deriving DecidableEq, Repr

/-- Medical record document (fields the tools read). -/
structure MedicalRecord where
  id : DocId
  patient_id : DocId
  visit_date : Nat
deriving DecidableEq, Repr

/-- Prescription document (fields the tools read); `status` is one of
"active" / "completed" / "discontinued". -/
structure Prescription where
  id : DocId
  patient_id : DocId
  prescribed_date : Nat
  status : String
deriving DecidableEq, Repr

/-- Lab report document (fields the tools read). -/
structure LabReport where
  id : DocId
  patient_id : DocId
  test_date : Nat
deriving DecidableEq, Repr

/-- The whole database: the six collections of src/main.py plus the store's
id generator. -/
structure DB where
  patients : List Patient := []
  doctors : List Doctor := []
  appointments : List Appointment := []
  medical_records : List MedicalRecord := []
  prescriptions : List Prescription := []
  lab_reports : List LabReport := []
  nextId : DocId := 0
deriving Repr

/-- The distinct error payloads the tools return
(each constructor stands for one `{"error": ...}` message of src/main.py;
`duplicateKey` is a store-raised `DuplicateKeyError` surfaced through the
generic `except` branch). -/
inductive ErrMsg where
  | patientNotFound (id : DocId)
  | doctorNotFound (id : DocId)
  | appointmentNotFound (id : DocId)
  | slotBooked
  | noFieldsToUpdate
  | duplicateKey
deriving DecidableEq, Repr

/-- Python truthiness of an optional string argument: `if arg:` is skipped
for `None` and for the empty string. -/
def truthy : Option String → Bool
  | some s => !(s == "")
  | none => false

/-- `update_one(filter, {$set: ...})`: rewrite the first document matching
the filter, leave everything else in place. -/
def updateFirst (p : α → Bool) (f : α → α) : List α → List α
  | [] => []
  | x :: xs => if p x then f x :: xs else x :: updateFirst p f xs

/-- Stable insertion step for an ascending sort by a `Nat` key. -/
def insertByAsc (key : α → Nat) (x : α) : List α → List α
  | [] => [x]
  | y :: ys => if key x ≤ key y then x :: y :: ys else y :: insertByAsc key x ys

/-- `.sort(field, 1)`: stable ascending sort by a `Nat` key. -/
def sortByAsc (key : α → Nat) : List α → List α
  | [] => []
  | x :: xs => insertByAsc key x (sortByAsc key xs)

/-- Stable insertion step for a descending sort by a `Nat` key. -/
def insertByDesc (key : α → Nat) (x : α) : List α → List α
  | [] => [x]
  | y :: ys => if key y ≤ key x then x :: y :: ys else y :: insertByDesc key x ys

/-- `.sort(field, -1)`: stable descending sort by a `Nat` key. -/
def sortByDesc (key : α → Nat) : List α → List α
  | [] => []
  | x :: xs => insertByDesc key x (sortByDesc key xs)

/-- The conflict filter shared by booking and rescheduling
(src/main.py lines 312-316 and 407-412):
`doctor_id = did`, `appointment_datetime = dt`, `status ∈ {scheduled, confirmed}`. -/
def slotActive (did : DocId) (dt : DateTime) (a : Appointment) : Bool :=
  a.doctor_id == did && a.appointment_datetime == dt && a.status.isActive

/-- `book_appointment` (src/main.py lines 275-343): resolve patient and
doctor, check the active-status slot conflict, then insert a new
appointment document with status "scheduled" and the denormalized names.
`now` stands for `datetime.utcnow()`; the store assigns `db.nextId` as the
inserted `_id`. -/
def book_appointment (db : DB) (patient_id doctor_id : DocId)
    (appointment_datetime : DateTime) (reason : String) (symptoms : Option String)
    (now : Nat) : Except ErrMsg Appointment × DB :=
  match db.patients.find? (fun p => p.id == patient_id) with
  | none => (.error (.patientNotFound patient_id), db)
  | some patient =>
    match db.doctors.find? (fun d => d.id == doctor_id) with
    | none => (.error (.doctorNotFound doctor_id), db)
    | some doctor =>
      if db.appointments.any (slotActive doctor_id appointment_datetime) then
        (.error .slotBooked, db)
      else
        let appt : Appointment := {
          id := db.nextId
          patient_id := patient_id
          patient_name := patient.name
          doctor_id := doctor_id
          doctor_name := doctor.name
          appointment_datetime := appointment_datetime
          reason := reason
          symptoms := symptoms
          status := .scheduled
          created_at := now }
        (.ok appt,
          { db with appointments := db.appointments ++ [appt], nextId := db.nextId + 1 })

/-- From src/init_db.py line 57: `initialize_database` puts a UNIQUE index on
`(doctor_id, appointment_datetime)` on the appointments collection, with no
partial filter on status.  An insert collides when ANY existing appointment
document — whatever its status — has the same pair. -/
def violatesApptUniqueIndex (db : DB) (did : DocId) (dt : DateTime) : Bool :=
  db.appointments.any (fun a => a.doctor_id == did && a.appointment_datetime == dt)

/-- `book_appointment` as executed against a database set up by
src/init_db.py: identical to `book_appointment`, except that `insert_one`
raises `DuplicateKeyError` when the unique index of init_db.py line 57 is
violated, and the surrounding `except` turns that into a generic error
result with no document written. -/
def book_appointment_indexed (db : DB) (patient_id doctor_id : DocId)
    (appointment_datetime : DateTime) (reason : String) (symptoms : Option String)
    (now : Nat) : Except ErrMsg Appointment × DB :=
  match db.patients.find? (fun p => p.id == patient_id) with
  | none => (.error (.patientNotFound patient_id), db)
  | some patient =>
    match db.doctors.find? (fun d => d.id == doctor_id) with
    | none => (.error (.doctorNotFound doctor_id), db)
    | some doctor =>
      if db.appointments.any (slotActive doctor_id appointment_datetime) then
        (.error .slotBooked, db)
      else if violatesApptUniqueIndex db doctor_id appointment_datetime then
        (.error .duplicateKey, db)
      else
        let appt : Appointment := {
          id := db.nextId
          patient_id := patient_id
          patient_name := patient.name
          doctor_id := doctor_id
          doctor_name := doctor.name
          appointment_datetime := appointment_datetime
          reason := reason
          symptoms := symptoms
          status := .scheduled
          created_at := now }
        (.ok appt,
          { db with appointments := db.appointments ++ [appt], nextId := db.nextId + 1 })

/-- The `$set` payload of `reschedule_appointment` (src/main.py line 419):
the new datetime and the update timestamp; every other field, status
included, is left as it is. -/
def reschedPatch (new_datetime : DateTime) (now : Nat) (a : Appointment) : Appointment :=
  { a with appointment_datetime := new_datetime, updated_at := some now }

/-- `reschedule_appointment` (src/main.py lines 382-430): look the
appointment up, check the conflict filter against the same doctor at the new
instant excluding the appointment itself (`_id: {$ne: ...}`), then `$set` the
new datetime and `updated_at` and return the re-read document.  The source
performs no status check whatsoever. -/
def reschedule_appointment (db : DB) (appointment_id : DocId)
    (new_datetime : DateTime) (now : Nat) : Except ErrMsg Appointment × DB :=
  match db.appointments.find? (fun a => a.id == appointment_id) with
  | none => (.error (.appointmentNotFound appointment_id), db)
  | some appt =>
    if db.appointments.any (fun a =>
        slotActive appt.doctor_id new_datetime a && !(a.id == appointment_id)) then
      (.error .slotBooked, db)
    else
      let appts' := updateFirst (fun a => a.id == appointment_id)
        (reschedPatch new_datetime now) db.appointments
      let db' := { db with appointments := appts' }
      match db'.appointments.find? (fun a => a.id == appointment_id) with
      | some updated => (.ok updated, db')
      | none => (.error (.appointmentNotFound appointment_id), db')

/-- The `$set` payload of `cancel_appointment` (src/main.py lines 445-452):
status := "cancelled", `cancelled_at` and `updated_at` := now, and the
cancellation reason only when the optional argument is truthy. -/
def cancelPatch (reason : Option String) (now : Nat) (a : Appointment) : Appointment :=
  { a with status := .cancelled, cancelled_at := some now, updated_at := some now,
           cancellation_reason := if truthy reason then reason else a.cancellation_reason }

/-- `cancel_appointment` (src/main.py lines 432-468): a blind
`update_one({_id: ...}, {$set: ...})` with no status check; when
`modified_count == 0` (no document matched, or the patch changed nothing)
it reports the not-found error, otherwise success with the appointment id. -/
def cancel_appointment (db : DB) (appointment_id : DocId) (reason : Option String)
    (now : Nat) : Except ErrMsg DocId × DB :=
  match db.appointments.find? (fun a => a.id == appointment_id) with
  | none => (.error (.appointmentNotFound appointment_id), db)
  | some a =>
    let appts' :=
      updateFirst (fun x => x.id == appointment_id) (cancelPatch reason now) db.appointments
    let db' := { db with appointments := appts' }
    if cancelPatch reason now a = a then (.error (.appointmentNotFound appointment_id), db')
    else (.ok appointment_id, db')

/-- The `$set` payload of `update_patient_profile` (src/main.py lines
174-189): `updated_at` always, and each optional field only when truthy. -/
def profilePatch (email contact address emergency_contact allergies : Option String)
    (now : Nat) (p : Patient) : Patient :=
  { p with
    updated_at := now
    email := if truthy email then email else p.email
    contact := match contact with
      | some c => if c == "" then p.contact else c
      | none => p.contact
    address := if truthy address then address else p.address
    emergency_contact :=
      if truthy emergency_contact then emergency_contact else p.emergency_contact
    allergies := if truthy allergies then allergies else p.allergies }

/-- `update_patient_profile` (src/main.py lines 151-202): reject a call with
no truthy field, `update_one` the patient document, treat
`modified_count == 0` as not-found, and return the re-read document. -/
def update_patient_profile (db : DB) (patient_id : DocId)
    (email contact address emergency_contact allergies : Option String)
    (now : Nat) : Except ErrMsg Patient × DB :=
  if !(truthy email || truthy contact || truthy address
      || truthy emergency_contact || truthy allergies) then
    (.error .noFieldsToUpdate, db)
  else
    match db.patients.find? (fun p => p.id == patient_id) with
    | none => (.error (.patientNotFound patient_id), db)
    | some p =>
      let pats' := updateFirst (fun x => x.id == patient_id)
        (profilePatch email contact address emergency_contact allergies now)
        db.patients
      let db' := { db with patients := pats' }
      if profilePatch email contact address emergency_contact allergies now p = p then
        (.error (.patientNotFound patient_id), db')
      else
        match db'.patients.find? (fun x => x.id == patient_id) with
        | some p' => (.ok p', db')
        | none => (.error (.patientNotFound patient_id), db')

/-- `get_patient_profile` (src/main.py lines 127-149). -/
def get_patient_profile (db : DB) (patient_id : DocId) : Except ErrMsg Patient :=
  match db.patients.find? (fun p => p.id == patient_id) with
  | none => .error (.patientNotFound patient_id)
  | some p => .ok p

/-- `get_doctor_info` (src/main.py lines 246-268). -/
def get_doctor_info (db : DB) (doctor_id : DocId) : Except ErrMsg Doctor :=
  match db.doctors.find? (fun d => d.id == doctor_id) with
  | none => .error (.doctorNotFound doctor_id)
  | some d => .ok d

/-- `get_my_appointments` (src/main.py lines 345-380): filter by patient,
optional status, optional `appointment_datetime >= now`; sort ascending by
datetime; `to_list(length=100)` keeps at most the first 100.  No patient
existence check is performed. -/
def get_my_appointments (db : DB) (patient_id : DocId) (status : Option Status)
    (upcoming_only : Bool) (now : Nat) : Except ErrMsg (List Appointment) :=
  .ok ((sortByAsc (fun a => a.appointment_datetime)
    (db.appointments.filter (fun a =>
      a.patient_id == patient_id
      && (match status with
          | some st => decide (a.status = st)
          | none => true)
      && (!upcoming_only || decide (now ≤ a.appointment_datetime))))).take 100)

/-- `get_medical_history` (src/main.py lines 474-499): filter by patient,
sort by visit date descending, keep at most `limit` records.  No patient
existence check is performed. -/
def get_medical_history (db : DB) (patient_id : DocId) (limit : Nat) :
    Except ErrMsg (List MedicalRecord) :=
  .ok ((sortByDesc (fun r => r.visit_date)
    (db.medical_records.filter (fun r => r.patient_id == patient_id))).take limit)

/-- `get_prescriptions` (src/main.py lines 501-531): filter by patient and
optionally by status "active", sort by prescribed date descending,
`to_list(length=100)`.  No patient existence check is performed. -/
def get_prescriptions (db : DB) (patient_id : DocId) (active_only : Bool) :
    Except ErrMsg (List Prescription) :=
  .ok ((sortByDesc (fun pr => pr.prescribed_date)
    (db.prescriptions.filter (fun pr =>
      pr.patient_id == patient_id
      && (!active_only || pr.status == "active")))).take 100)

/-- `get_lab_reports` (src/main.py lines 533-558): filter by patient, sort by
test date descending, keep at most `limit`.  No patient existence check is
performed. -/
def get_lab_reports (db : DB) (patient_id : DocId) (limit : Nat) :
    Except ErrMsg (List LabReport) :=
  .ok ((sortByDesc (fun r => r.test_date)
    (db.lab_reports.filter (fun r => r.patient_id == patient_id))).take limit)

/-- `get_appointment_reminders` (src/main.py lines 564-595): active-status
appointments of the patient with datetime in `[now, now + days]`, sorted
ascending, `to_list(length=100)`.  No patient existence check is performed. -/
def get_appointment_reminders (db : DB) (patient_id : DocId) (days : Nat)
    (now : Nat) : Except ErrMsg (List Appointment) :=
  .ok ((sortByAsc (fun a => a.appointment_datetime)
    (db.appointments.filter (fun a =>
      a.patient_id == patient_id
      && decide (now ≤ a.appointment_datetime)
      && decide (a.appointment_datetime ≤ now + days * 1440)
      && a.status.isActive))).take 100)

/-- Case-insensitive containment: the model of Mongo's
`{$regex: pat, $options: "i"}` for the plain-text patterns used by doctor
search. -/
def isInfixChars (pat : List Char) : List Char → Bool
  | [] => pat.isEmpty
  | c :: rest => pat.isPrefixOf (c :: rest) || isInfixChars pat rest

/-- Case-insensitive substring test on strings. -/
def containsCI (field pat : String) : Bool :=
  isInfixChars pat.toLower.data field.toLower.data

/-- One optional regex clause of `search_doctors`: absent or empty arguments
add no clause (Python truthiness), a present one matches case-insensitively. -/
def doctorClause (arg : Option String) (field : String) : Bool :=
  match arg with
  | some s => if s == "" then true else containsCI field s
  | none => true

/-- `search_doctors` (src/main.py lines 208-244): conjunction of the three
optional case-insensitive clauses, `to_list(length=100)` keeps at most the
first 100 matches; no sort. -/
def search_doctors (db : DB) (specialization department name : Option String) :
    Except ErrMsg (List Doctor) :=
  .ok ((db.doctors.filter (fun d =>
    doctorClause specialization d.specialization
    && doctorClause department d.department
    && doctorClause name d.name)).take 100)

/-- The summary payload of `get_health_summary` (src/main.py lines 632-643). -/
structure HealthSummary where
  patient_name : String
  total_visits : Nat
  upcoming_appointments : Nat
  active_prescriptions : Nat
  last_visit : Option MedicalRecord
  blood_group : Option String
  allergies : Option String
deriving DecidableEq, Repr

/-- The summary computed for a resolved patient (src/main.py lines 614-643):
`count_documents` over medical records, upcoming active appointments and
active prescriptions, and the most recent medical record via
`find_one(..., sort=[("visit_date", -1)])`. -/
def healthSummary (db : DB) (patient_id : DocId) (now : Nat) (patient : Patient) :
    HealthSummary :=
  { patient_name := patient.name
    total_visits := db.medical_records.countP (fun r => r.patient_id == patient_id)
    upcoming_appointments := db.appointments.countP (fun a =>
      a.patient_id == patient_id && decide (now ≤ a.appointment_datetime)
        && a.status.isActive)
    active_prescriptions := db.prescriptions.countP (fun pr =>
      pr.patient_id == patient_id && pr.status == "active")
    last_visit := (sortByDesc (fun r => r.visit_date)
      (db.medical_records.filter (fun r => r.patient_id == patient_id))).head?
    blood_group := patient.blood_group
    allergies := patient.allergies }

/-- `get_health_summary` (src/main.py lines 597-645): not-found when the
patient is absent; otherwise the computed summary. -/
def get_health_summary (db : DB) (patient_id : DocId) (now : Nat) :
    Except ErrMsg HealthSummary :=
  match db.patients.find? (fun p => p.id == patient_id) with
  | none => .error (.patientNotFound patient_id)
  | some patient => .ok (healthSummary db patient_id now patient)

/-- One scheduling call with all its arguments, for reasoning about call
sequences. -/
inductive SchedOp where
  | book (patient_id doctor_id : DocId) (dt : DateTime) (reason : String)
      (symptoms : Option String) (now : Nat)
  | resched (appointment_id : DocId) (dt : DateTime) (now : Nat)
  | cancel (appointment_id : DocId) (reason : Option String) (now : Nat)

/-- State reached after one scheduling call. -/
def applySchedOp (db : DB) : SchedOp → DB
  | .book p d dt r s now => (book_appointment db p d dt r s now).2
  | .resched a dt now => (reschedule_appointment db a dt now).2
  | .cancel a r now => (cancel_appointment db a r now).2

/-- State reached after a finite sequence of scheduling calls executed
sequentially. -/
def applySchedOps (db : DB) : List SchedOp → DB
  | [] => db
  | op :: ops => applySchedOps (applySchedOp db op) ops

/-- The no-double-booking invariant (spec §3 and §8): for every doctor and
instant, at most one stored appointment is active at that slot. -/
def NoDoubleBooking (db : DB) : Prop :=
  ∀ did dt, db.appointments.countP (slotActive did dt) ≤ 1

/-- Store well-formedness the backend itself guarantees: `_id`s of the
appointments collection are pairwise distinct, and all of them were minted
below the id generator's next value. -/
def StoreOk (db : DB) : Prop :=
  (db.appointments.map (fun a => a.id)).Nodup ∧
    ∀ a ∈ db.appointments, a.id < db.nextId

/-! ## Concrete sample states

Small concrete databases used to instantiate the theorems; documents follow
the seed data of src/init_db.py. -/

/-- A database with every collection empty. -/
def emptyDB : DB := {}

/-- The seed patient of src/init_db.py. -/
def samplePatient : Patient :=
  { id := 1, name := "John Doe", age := 35, gender := "Male", contact := "+1-555-1001" }

/-- A seed doctor of src/init_db.py. -/
def sampleDoctor : Doctor :=
  { id := 2, name := "Dr. Sarah Johnson", specialization := "Cardiology",
    department := "Cardiology" }

/-- A scheduled appointment of the sample patient with the sample doctor. -/
def baseAppt : Appointment :=
  { id := 5, patient_id := 1, patient_name := "John Doe", doctor_id := 2,
    doctor_name := "Dr. Sarah Johnson", appointment_datetime := 500,
    reason := "checkup", status := .scheduled, created_at := 9 }

/-- One completed appointment in store. -/
def dbTerminal : DB :=
  { appointments := [{ baseAppt with status := .completed }], nextId := 6 }

/-- One scheduled appointment in store. -/
def dbSched : DB := { appointments := [baseAppt], nextId := 6 }

/-- Patient, doctor and one active appointment at (doctor 2, instant 500). -/
def dbConflict : DB :=
  { patients := [samplePatient], doctors := [sampleDoctor],
    appointments := [baseAppt], nextId := 6 }

/-- Patient, doctor and one CANCELLED appointment at (doctor 2, instant 500):
the slot holds no active booking. -/
def dbCancelledSlot : DB :=
  { patients := [samplePatient], doctors := [sampleDoctor],
    appointments := [{ baseAppt with status := .cancelled }], nextId := 6 }

/-- Patient and doctor only; empty appointment book. -/
def dbFresh : DB :=
  { patients := [samplePatient], doctors := [sampleDoctor], nextId := 0 }

/-- A call sequence exercising book, double book, reschedule and cancel. -/
def opsSample : List SchedOp :=
  [.book 1 2 500 "checkup" none 10, .book 1 2 500 "flu" none 11,
   .resched 0 600 12, .cancel 0 none 13, .book 1 2 600 "followup" none 14]

/-- A cancelled appointment (id 1) and a scheduled one (id 2) of the same
doctor at the same instant 500. -/
def dbCancelPlusActive : DB :=
  { appointments := [{ baseAppt with id := 1, status := .cancelled },
      { baseAppt with id := 2 }], nextId := 3 }

/-- A medical record of the sample patient. -/
def sampleRecord : MedicalRecord := { id := 11, patient_id := 1, visit_date := 100 }

/-- An active prescription of the sample patient. -/
def samplePrescription : Prescription :=
  { id := 12, patient_id := 1, prescribed_date := 100, status := "active" }

/-- The spec §8 summary scenario: one medical record, one active
prescription, one future scheduled appointment for the sample patient. -/
def dbSummary : DB :=
  { patients := [samplePatient], doctors := [sampleDoctor],
    appointments := [baseAppt],
    medical_records := [sampleRecord],
    prescriptions := [samplePrescription],
    nextId := 20 }

/-! ## List infrastructure lemmas -/

theorem any_false_forall {p : α → Bool} {l : List α} (h : l.any p = false) :
    ∀ x ∈ l, p x = false := by
  intro x hx
  by_contra hpx
  have hx' : l.any p = true := List.any_eq_true.mpr ⟨x, hx, by simpa using hpx⟩
  rw [h] at hx'
  exact Bool.false_ne_true hx'

theorem two_le_countP {p : α → Bool} {l : List α} {a b : α} (ha : a ∈ l) (hb : b ∈ l)
    (hne : a ≠ b) (hpa : p a = true) (hpb : p b = true) : 2 ≤ l.countP p := by
  induction l with
  | nil => simp at ha
  | cons x xs ih =>
    rw [List.countP_cons]
    rcases List.mem_cons.mp ha with rfl | ha'
    · rcases List.mem_cons.mp hb with rfl | hb'
      · exact absurd rfl hne
      · have h1 : 0 < xs.countP p := List.countP_pos_iff.mpr ⟨b, hb', hpb⟩
        rw [hpa, if_pos rfl]
        omega
    · rcases List.mem_cons.mp hb with rfl | hb'
      · have h1 : 0 < xs.countP p := List.countP_pos_iff.mpr ⟨a, ha', hpa⟩
        rw [hpb, if_pos rfl]
        omega
      · have := ih ha' hb'
        omega

theorem updateFirst_decomp {p : α → Bool} (f : α → α) {l : List α} {a : α}
    (h : l.find? p = some a) :
    ∃ l₁ l₂, l = l₁ ++ a :: l₂ ∧ (∀ x ∈ l₁, p x = false) ∧
      updateFirst p f l = l₁ ++ f a :: l₂ := by
  induction l with
  | nil => simp at h
  | cons x xs ih =>
    by_cases hx : p x = true
    · rw [List.find?_cons_of_pos xs hx] at h
      obtain rfl : x = a := by injection h
      exact ⟨[], xs, by simp, by simp, by simp [updateFirst, hx]⟩
    · have hx' : p x = false := by simpa using hx
      rw [List.find?_cons_of_neg xs (by simp [hx'])] at h
      obtain ⟨l₁, l₂, hl, hl₁, hu⟩ := ih h
      refine ⟨x :: l₁, l₂, by simp [hl], ?_, ?_⟩
      · intro y hy
        rcases List.mem_cons.mp hy with rfl | hy'
        · exact hx'
        · exact hl₁ y hy'
      · simp [updateFirst, hx', hu]

theorem find?_decomp {p : α → Bool} {l₁ l₂ : List α} {b : α}
    (h₁ : ∀ x ∈ l₁, p x = false) (hb : p b = true) :
    (l₁ ++ b :: l₂).find? p = some b := by
  induction l₁ with
  | nil => simpa using List.find?_cons_of_pos l₂ hb
  | cons x xs ih =>
    have hx : p x = false := h₁ x (List.mem_cons_self x xs)
    rw [List.cons_append, List.find?_cons_of_neg _ (by simp [hx])]
    exact ih (fun y hy => h₁ y (List.mem_cons_of_mem x hy))

theorem mem_updateFirst {p : α → Bool} {f : α → α} {l : List α} {x : α}
    (hx : x ∈ updateFirst p f l) : x ∈ l ∨ ∃ y ∈ l, x = f y := by
  induction l with
  | nil => simp [updateFirst] at hx
  | cons z zs ih =>
    by_cases hz : p z = true
    · simp only [updateFirst, hz, if_true] at hx
      rcases List.mem_cons.mp hx with rfl | hx'
      · exact .inr ⟨z, List.mem_cons_self z zs, rfl⟩
      · exact .inl (List.mem_cons_of_mem z hx')
    · simp only [updateFirst, hz, if_false, Bool.false_eq_true] at hx
      rcases List.mem_cons.mp hx with rfl | hx'
      · exact .inl (List.mem_cons_self x zs)
      · rcases ih hx' with h | ⟨y, hy, hxy⟩
        · exact .inl (List.mem_cons_of_mem z h)
        · exact .inr ⟨y, List.mem_cons_of_mem z hy, hxy⟩

theorem map_updateFirst {p : α → Bool} (f : α → α) (g : α → β) (hg : ∀ x, g (f x) = g x)
    (l : List α) : (updateFirst p f l).map g = l.map g := by
  induction l with
  | nil => rfl
  | cons x xs ih =>
    by_cases hx : p x = true <;> simp [updateFirst, hx, hg, ih]

theorem find?_key_of_mem {key : α → Nat} {l : List α} {a : α}
    (hids : (l.map key).Nodup) (ha : a ∈ l) :
    l.find? (fun x => key x == key a) = some a := by
  induction l with
  | nil => simp at ha
  | cons x xs ih =>
    rcases List.mem_cons.mp ha with rfl | ha'
    · exact List.find?_cons_of_pos xs (by simp)
    · rw [List.map_cons, List.nodup_cons] at hids
      have hx : ¬ key x = key a := by
        intro he
        exact hids.1 (he ▸ List.mem_map_of_mem key ha')
      rw [List.find?_cons_of_neg xs (by simp [hx])]
      exact ih hids.2 ha'

/-! ## Sorting lemmas -/

theorem length_insertByAsc (key : α → Nat) (x : α) (l : List α) :
    (insertByAsc key x l).length = l.length + 1 := by
  induction l with
  | nil => rfl
  | cons y ys ih =>
    by_cases h : key x ≤ key y <;> simp [insertByAsc, h, ih]

theorem length_sortByAsc (key : α → Nat) (l : List α) :
    (sortByAsc key l).length = l.length := by
  induction l with
  | nil => rfl
  | cons x xs ih => simp [sortByAsc, length_insertByAsc, ih]

theorem length_insertByDesc (key : α → Nat) (x : α) (l : List α) :
    (insertByDesc key x l).length = l.length + 1 := by
  induction l with
  | nil => rfl
  | cons y ys ih =>
    by_cases h : key y ≤ key x <;> simp [insertByDesc, h, ih]

theorem length_sortByDesc (key : α → Nat) (l : List α) :
    (sortByDesc key l).length = l.length := by
  induction l with
  | nil => rfl
  | cons x xs ih => simp [sortByDesc, length_insertByDesc, ih]

theorem sortByDesc_eq_nil_iff (key : α → Nat) (l : List α) :
    sortByDesc key l = [] ↔ l = [] := by
  constructor
  · intro h
    have := length_sortByDesc key l
    rw [h] at this
    exact List.length_eq_zero.mp this.symm
  · intro h
    rw [h]
    rfl

theorem mem_insertByDesc {key : α → Nat} {x y : α} {l : List α} :
    x ∈ insertByDesc key y l ↔ x = y ∨ x ∈ l := by
  induction l with
  | nil => simp [insertByDesc]
  | cons z zs ih =>
    by_cases h : key z ≤ key y
    · simp [insertByDesc, h]
    · simp [insertByDesc, h, ih]
      tauto

theorem mem_sortByDesc {key : α → Nat} {x : α} {l : List α} :
    x ∈ sortByDesc key l ↔ x ∈ l := by
  induction l with
  | nil => simp [sortByDesc]
  | cons z zs ih => simp [sortByDesc, mem_insertByDesc, ih]

theorem sortByDesc_head_max {key : α → Nat} {l : List α} :
    ∀ r, (sortByDesc key l).head? = some r → r ∈ l ∧ ∀ x ∈ l, key x ≤ key r := by
  induction l with
  | nil => intro r h; simp [sortByDesc] at h
  | cons x xs ih =>
    intro r h
    rw [sortByDesc] at h
    cases hs : sortByDesc key xs with
    | nil =>
      rw [hs] at h
      simp only [insertByDesc, List.head?] at h
      obtain rfl : x = r := by injection h
      have hxs : xs = [] := (sortByDesc_eq_nil_iff key xs).mp hs
      subst hxs
      exact ⟨List.mem_cons_self x [], by simp⟩
    | cons y ys =>
      rw [hs] at h
      have hy := ih y (by rw [hs]; rfl)
      by_cases hcmp : key y ≤ key x
      · simp only [insertByDesc, hcmp, if_true, List.head?] at h
        obtain rfl : x = r := by injection h
        refine ⟨List.mem_cons_self x xs, ?_⟩
        intro z hz
        rcases List.mem_cons.mp hz with rfl | hz'
        · exact le_refl _
        · exact le_trans (hy.2 z hz') hcmp
      · simp only [insertByDesc, hcmp, if_false, Bool.false_eq_true, List.head?] at h
        obtain rfl : y = r := by injection h
        refine ⟨List.mem_cons_of_mem x hy.1, ?_⟩
        intro z hz
        rcases List.mem_cons.mp hz with rfl | hz'
        · exact le_of_not_le hcmp
        · exact hy.2 z hz'

/-! ## Shape lemmas for the scheduling operations -/

theorem book_appointment_snd (db : DB) (p d : DocId) (dt : DateTime) (r : String)
    (s : Option String) (now : Nat) :
    (book_appointment db p d dt r s now).2 = db ∨
    (db.appointments.any (slotActive d dt) = false ∧
      ∃ a : Appointment, a.doctor_id = d ∧ a.appointment_datetime = dt ∧
        a.status = .scheduled ∧ a.id = db.nextId ∧
        (book_appointment db p d dt r s now).2 =
          { db with appointments := db.appointments ++ [a], nextId := db.nextId + 1 }) := by
  unfold book_appointment
  split
  · left; rfl
  · split
    · left; rfl
    · split
      · left; rfl
      · rename_i hc
        right
        exact ⟨by simpa using hc, _, rfl, rfl, rfl, rfl, rfl⟩

theorem cancel_appointment_snd (db : DB) (aid : DocId) (r : Option String) (now : Nat) :
    (cancel_appointment db aid r now).2 = db ∨
    (cancel_appointment db aid r now).2 =
      { db with appointments :=
          updateFirst (fun x => x.id == aid) (cancelPatch r now) db.appointments } := by
  unfold cancel_appointment
  split
  · left; rfl
  · dsimp only
    split
    · right; rfl
    · right; rfl

theorem reschedule_appointment_snd (db : DB) (aid : DocId) (ndt : DateTime) (now : Nat) :
    (reschedule_appointment db aid ndt now).2 = db ∨
    ∃ appt, db.appointments.find? (fun a => a.id == aid) = some appt ∧
      db.appointments.any
        (fun a => slotActive appt.doctor_id ndt a && !(a.id == aid)) = false ∧
      (reschedule_appointment db aid ndt now).2 =
        { db with appointments :=
            updateFirst (fun a => a.id == aid) (reschedPatch ndt now) db.appointments } := by
  unfold reschedule_appointment
  split
  · left; rfl
  · rename_i appt hfind
    split
    · left; rfl
    · rename_i hc
      right
      refine ⟨appt, hfind, by simpa using hc, ?_⟩
      dsimp only
      split
      · rfl
      · rfl

/-! ## Invariant preservation -/

theorem countP_updateFirst_le {p q : α → Bool} {f : α → α}
    (hf : ∀ x, q (f x) = false) (l : List α) :
    (updateFirst p f l).countP q ≤ l.countP q := by
  induction l with
  | nil => exact le_refl _
  | cons x xs ih =>
    by_cases hx : p x = true
    · simp only [updateFirst, hx, if_true, List.countP_cons, hf x]
      have h0 : (if (false : Bool) = true then 1 else 0) = 0 := by simp
      rw [h0, Nat.add_zero]
      exact Nat.le_add_right _ _
    · simp only [updateFirst, hx, if_false, Bool.false_eq_true, List.countP_cons]
      exact Nat.add_le_add_right ih _

theorem book_appointment_ndb (db : DB) (p d : DocId) (dt : DateTime) (r : String)
    (s : Option String) (now : Nat) (h : NoDoubleBooking db) :
    NoDoubleBooking (book_appointment db p d dt r s now).2 := by
  rcases book_appointment_snd db p d dt r s now with heq | ⟨hc, a, had, hadt, hst, _, heq⟩
  · rw [heq]; exact h
  · rw [heq]
    intro did dt'
    show (db.appointments ++ [a]).countP (slotActive did dt') ≤ 1
    rw [List.countP_append]
    by_cases hq : slotActive did dt' a = true
    · obtain ⟨⟨h1, h2⟩, _⟩ : (d = did ∧ dt = dt') ∧ True := by
        have := hq
        simp only [slotActive, had, hadt, hst, Status.isActive, Bool.and_true,
          Bool.and_eq_true, beq_iff_eq] at this
        exact ⟨this, trivial⟩
      subst h1
      subst h2
      have hzero : db.appointments.countP (slotActive d dt) = 0 :=
        List.countP_eq_zero.mpr (fun x hx => by
          have := any_false_forall hc x hx
          simp [this])
      rw [hzero]
      have hle : ([a].countP (slotActive d dt)) ≤ 1 := by
        have h1 : ([a].countP (slotActive d dt)) ≤ ([a] : List Appointment).length :=
          List.countP_le_length _
        simpa using h1
      omega
    · have hq' : slotActive did dt' a = false := by simpa using hq
      have h0 : ([a].countP (slotActive did dt')) = 0 := by
        simp [List.countP_cons, hq']
      rw [h0, Nat.add_zero]
      exact h did dt'

theorem cancel_appointment_ndb (db : DB) (aid : DocId) (r : Option String) (now : Nat)
    (h : NoDoubleBooking db) :
    NoDoubleBooking (cancel_appointment db aid r now).2 := by
  rcases cancel_appointment_snd db aid r now with heq | heq <;> rw [heq]
  · exact h
  · intro did dt
    refine le_trans (countP_updateFirst_le ?_ _) (h did dt)
    intro x
    simp [slotActive, cancelPatch, Status.isActive]

theorem reschedule_appointment_ndb (db : DB) (aid : DocId) (ndt : DateTime) (now : Nat)
    (hids : (db.appointments.map (fun a => a.id)).Nodup)
    (h : NoDoubleBooking db) :
    NoDoubleBooking (reschedule_appointment db aid ndt now).2 := by
  rcases reschedule_appointment_snd db aid ndt now with heq | ⟨appt, hfind, hc, heq⟩
  · rw [heq]; exact h
  · rw [heq]
    intro did dt
    obtain ⟨l₁, l₂, hl, _, hu⟩ := updateFirst_decomp (reschedPatch ndt now) hfind
    show (updateFirst (fun a => a.id == aid) (reschedPatch ndt now)
      db.appointments).countP (slotActive did dt) ≤ 1
    rw [hu]
    have happid : appt.id = aid := by simpa using List.find?_some hfind
    have hmid : ∀ x, x ∈ l₁ ++ l₂ → x.id ≠ aid := by
      have hids' := hids
      rw [hl, List.map_append, List.map_cons] at hids'
      have hmids := List.nodup_middle.mp hids'
      rw [List.nodup_cons] at hmids
      intro x hx he
      apply hmids.1
      rw [← List.map_append]
      have : x.id ∈ (l₁ ++ l₂).map (fun a => a.id) :=
        List.mem_map_of_mem (fun a => a.id) hx
      rw [he, ← happid] at this
      exact this
    have hother : ∀ x, x ∈ l₁ ++ l₂ → slotActive appt.doctor_id ndt x = false := by
      intro x hx
      have hxin : x ∈ db.appointments := by
        rw [hl]
        rcases List.mem_append.mp hx with hx' | hx'
        · exact List.mem_append_left _ hx'
        · exact List.mem_append_right _ (List.mem_cons_of_mem _ hx')
      have hany := any_false_forall hc x hxin
      have hid : (x.id == aid) = false := by simp [hmid x hx]
      simpa [hid] using hany
    rw [List.countP_append, List.countP_cons]
    by_cases hq : slotActive did dt (reschedPatch ndt now appt) = true
    · obtain ⟨⟨h1, h2⟩, _⟩ : (appt.doctor_id = did ∧ ndt = dt) ∧ True := by
        have := hq
        simp only [slotActive, reschedPatch, Bool.and_eq_true, beq_iff_eq] at this
        exact ⟨this.1, trivial⟩
      subst h1
      subst h2
      have z₁ : l₁.countP (slotActive appt.doctor_id ndt) = 0 :=
        List.countP_eq_zero.mpr (fun x hx => by
          simp [hother x (List.mem_append_left _ hx)])
      have z₂ : l₂.countP (slotActive appt.doctor_id ndt) = 0 :=
        List.countP_eq_zero.mpr (fun x hx => by
          simp [hother x (List.mem_append_right _ hx)])
      rw [z₁, z₂, hq, if_pos rfl]
    · have hq' : slotActive did dt (reschedPatch ndt now appt) = false := by
        simpa using hq
      rw [hq', if_neg (by simp), Nat.add_zero]
      have hold := h did dt
      rw [hl, List.countP_append, List.countP_cons] at hold
      omega

theorem book_appointment_storeOk (db : DB) (p d : DocId) (dt : DateTime) (r : String)
    (s : Option String) (now : Nat) (hs : StoreOk db) :
    StoreOk (book_appointment db p d dt r s now).2 := by
  rcases book_appointment_snd db p d dt r s now with heq | ⟨_, a, _, _, _, haid, heq⟩
  · rw [heq]; exact hs
  · rw [heq]
    constructor
    · show ((db.appointments ++ [a]).map (fun x => x.id)).Nodup
      rw [List.map_append]
      rw [List.nodup_append]
      refine ⟨hs.1, by simp, ?_⟩
      intro i hi hi'
      obtain ⟨y, hy, hyid⟩ := List.mem_map.mp hi
      have hyid' : y.id = i := hyid
      have hbound := hs.2 y hy
      have hia : i = a.id := by simpa using hi'
      rw [hia, haid] at hyid'
      exact absurd hyid' (Nat.ne_of_lt hbound)
    · intro x hx
      show x.id < db.nextId + 1
      rcases List.mem_append.mp hx with hx' | hx'
      · exact Nat.lt_succ_of_lt (hs.2 x hx')
      · have hxa : x = a := by simpa using hx'
        rw [hxa, haid]
        exact Nat.lt_succ_self _

theorem cancel_appointment_storeOk (db : DB) (aid : DocId) (r : Option String)
    (now : Nat) (hs : StoreOk db) : StoreOk (cancel_appointment db aid r now).2 := by
  rcases cancel_appointment_snd db aid r now with heq | heq <;> rw [heq]
  · exact hs
  · constructor
    · show ((updateFirst (fun x => x.id == aid) (cancelPatch r now)
        db.appointments).map (fun a => a.id)).Nodup
      rw [map_updateFirst (cancelPatch r now) (fun a => a.id) (fun _ => rfl)]
      exact hs.1
    · intro x hx
      rcases mem_updateFirst hx with hx' | ⟨y, hy, rfl⟩
      · exact hs.2 x hx'
      · exact hs.2 y hy

theorem reschedule_appointment_storeOk (db : DB) (aid : DocId) (ndt : DateTime)
    (now : Nat) (hs : StoreOk db) : StoreOk (reschedule_appointment db aid ndt now).2 := by
  rcases reschedule_appointment_snd db aid ndt now with heq | ⟨appt, _, _, heq⟩ <;> rw [heq]
  · exact hs
  · constructor
    · show ((updateFirst (fun a => a.id == aid) (reschedPatch ndt now)
        db.appointments).map (fun a => a.id)).Nodup
      rw [map_updateFirst (reschedPatch ndt now) (fun a => a.id) (fun _ => rfl)]
      exact hs.1
    · intro x hx
      rcases mem_updateFirst hx with hx' | ⟨y, hy, rfl⟩
      · exact hs.2 x hx'
      · exact hs.2 y hy

theorem applySchedOp_wf (db : DB) (op : SchedOp) (hs : StoreOk db)
    (hn : NoDoubleBooking db) :
    StoreOk (applySchedOp db op) ∧ NoDoubleBooking (applySchedOp db op) := by
  cases op with
  | book p d dt r s now =>
    exact ⟨book_appointment_storeOk db p d dt r s now hs,
      book_appointment_ndb db p d dt r s now hn⟩
  | resched a dt now =>
    exact ⟨reschedule_appointment_storeOk db a dt now hs,
      reschedule_appointment_ndb db a dt now hs.1 hn⟩
  | cancel a r now =>
    exact ⟨cancel_appointment_storeOk db a r now hs,
      cancel_appointment_ndb db a r now hn⟩

theorem applySchedOps_wf (ops : List SchedOp) :
    ∀ db : DB, StoreOk db → NoDoubleBooking db →
      StoreOk (applySchedOps db ops) ∧ NoDoubleBooking (applySchedOps db ops) := by
  induction ops with
  | nil => intro db hs hn; exact ⟨hs, hn⟩
  | cons op ops ih =>
    intro db hs hn
    obtain ⟨hs', hn'⟩ := applySchedOp_wf db op hs hn
    exact ih _ hs' hn'

/-! ## Success-path characterizations -/

theorem reschedule_appointment_ok (db : DB) (aid : DocId) (ndt : DateTime) (now : Nat)
    (appt : Appointment)
    (hfind : db.appointments.find? (fun a => a.id == aid) = some appt)
    (hc : db.appointments.any
      (fun a => slotActive appt.doctor_id ndt a && !(a.id == aid)) = false) :
    (reschedule_appointment db aid ndt now).1 = .ok (reschedPatch ndt now appt) := by
  obtain ⟨l₁, l₂, _, hl₁, hu⟩ := updateFirst_decomp (reschedPatch ndt now) hfind
  have hpid0 := List.find?_some hfind
  have hpid : (appt.id == aid) = true := hpid0
  have hfind2 : (updateFirst (fun a => a.id == aid) (reschedPatch ndt now)
      db.appointments).find? (fun a => a.id == aid) = some (reschedPatch ndt now appt) := by
    rw [hu]
    refine find?_decomp hl₁ ?_
    show ((reschedPatch ndt now appt).id == aid) = true
    simpa [reschedPatch] using hpid
  unfold reschedule_appointment
  rw [hfind]
  simp only [hc, Bool.false_eq_true, if_false]
  rw [hfind2]

theorem update_patient_profile_snd (db : DB) (pid : DocId)
    (email contact address emergency_contact allergies : Option String) (now : Nat) :
    (update_patient_profile db pid email contact address emergency_contact allergies now).2
      = db ∨
    (update_patient_profile db pid email contact address emergency_contact allergies now).2
      = { db with patients := updateFirst (fun x => x.id == pid) (profilePatch email contact address emergency_contact allergies now) db.patients } := by
  unfold update_patient_profile
  split
  · left; rfl
  · split
    · left; rfl
    · dsimp only
      split
      · right; rfl
      · split
        · right; rfl
        · right; rfl

/-! ## The claims -/

/-- **C1**: the spec says reschedule or cancel on a terminal (`completed` /
`cancelled`) appointment fails with `InvalidTransition` (or as a no-op) and
never mutates the record.  The code performs no status check: on a store
holding one COMPLETED appointment (id 5), `reschedule_appointment` succeeds
and rewrites `appointment_datetime`, and `cancel_appointment` succeeds and
rewrites the status of the completed appointment to `cancelled`. -/
theorem terminal_status_not_protected :
    (reschedule_appointment dbTerminal 5 600 20).1 =
      .ok { baseAppt with status := .completed, appointment_datetime := 600, updated_at := some 20 } ∧
    ((reschedule_appointment dbTerminal 5 600 20).2).appointments =
      [{ baseAppt with status := .completed, appointment_datetime := 600, updated_at := some 20 }] ∧
    (cancel_appointment dbTerminal 5 none 30).1 = .ok 5 ∧
    ((cancel_appointment dbTerminal 5 none 30).2).appointments =
      [{ baseAppt with status := .cancelled, created_at := 9, cancelled_at := some 30, updated_at := some 30 }] :=
  ⟨rfl, rfl, rfl, rfl⟩

/-- **C2**: the spec says a second cancellation of the same appointment must
report that no change occurred.  In the code the `$set` always rewrites
`cancelled_at`/`updated_at` to the current clock, so `modified_count` is 1
again and the second call reports plain success (`.ok`) a second time;
the status does remain `cancelled`. -/
theorem cancel_twice_reports_success_again :
    (cancel_appointment dbSched 5 none 10).1 = .ok 5 ∧
    (cancel_appointment (cancel_appointment dbSched 5 none 10).2 5 none 20).1 = .ok 5 ∧
    ((cancel_appointment (cancel_appointment dbSched 5 none 10).2 5 none 20).2).appointments =
      [{ baseAppt with status := .cancelled, cancelled_at := some 20, updated_at := some 20 }] :=
  ⟨rfl, rfl, rfl⟩

/-- **C3**: when the patient and the doctor resolve and an appointment of
the same doctor at the same instant with status in {scheduled, confirmed}
already exists, `book_appointment` fails with the slot-conflict error, the
whole state is unchanged, and in particular the count of appointments of
that doctor at that instant is what it was before the call. -/
theorem book_conflict_rejected (db : DB) (p d : DocId) (dt : DateTime) (r : String)
    (s : Option String) (now : Nat) (pt : Patient) (dr : Doctor)
    (hp : db.patients.find? (fun x => x.id == p) = some pt)
    (hd : db.doctors.find? (fun x => x.id == d) = some dr)
    (hc : db.appointments.any (slotActive d dt) = true) :
    book_appointment db p d dt r s now = (.error .slotBooked, db) ∧
    ((book_appointment db p d dt r s now).2).appointments.countP (slotActive d dt) =
      db.appointments.countP (slotActive d dt) := by
  have h1 : book_appointment db p d dt r s now = (.error .slotBooked, db) := by
    unfold book_appointment
    simp only [hp, hd]
    rw [if_pos hc]
  exact ⟨h1, by rw [h1]⟩

/-- Witness for C3 on the concrete conflicting store. -/
theorem book_conflict_rejected_witness :
    book_appointment dbConflict 1 2 500 "flu" none 40 = (.error .slotBooked, dbConflict) ∧
    ((book_appointment dbConflict 1 2 500 "flu" none 40).2).appointments.countP (slotActive 2 500) =
      dbConflict.appointments.countP (slotActive 2 500) :=
  book_conflict_rejected dbConflict 1 2 500 "flu" none 40 samplePatient sampleDoctor rfl rfl rfl

/-- **C4**: with only a CANCELLED appointment occupying (doctor 2, instant
500), main.py's own conflict filter finds no active booking and
`book_appointment` would succeed with a new `scheduled` document — exactly
what the spec's invariant promises.  But the database bootstrap
(src/init_db.py line 57) declares the `(doctor_id, appointment_datetime)`
index UNIQUE with no status restriction, so against a store initialized by
init_db.py the very same call dies on `DuplicateKeyError` and writes
nothing: a non-active record does block the new booking. -/
theorem rebooking_cancelled_slot :
    dbCancelledSlot.appointments.any (slotActive 2 500) = false ∧
    (∃ a, (book_appointment dbCancelledSlot 1 2 500 "checkup" none 40).1 = .ok a ∧
      a.status = .scheduled ∧ a.appointment_datetime = 500 ∧ a.doctor_id = 2) ∧
    (book_appointment_indexed dbCancelledSlot 1 2 500 "checkup" none 40).1 =
      .error .duplicateKey ∧
    ((book_appointment_indexed dbCancelledSlot 1 2 500 "checkup" none 40).2).appointments =
      dbCancelledSlot.appointments :=
  ⟨rfl, ⟨_, rfl, rfl, rfl, rfl⟩, rfl, rfl⟩

/-- **C5**: from any state satisfying the no-double-booking invariant (with
the store's own id discipline), after any finite sequence of book,
reschedule and cancel calls executed sequentially, every doctor has at most
one active appointment at every instant. -/
theorem no_double_booking_after_ops (db : DB) (ops : List SchedOp)
    (hs : StoreOk db) (hn : NoDoubleBooking db) :
    ∀ did dt, ((applySchedOps db ops).appointments.countP (slotActive did dt)) ≤ 1 :=
  (applySchedOps_wf ops db hs hn).2

/-- Witness for C5: the sample sequence run from the fresh store. -/
theorem no_double_booking_after_ops_witness :
    (applySchedOps dbFresh opsSample).appointments.countP (slotActive 2 500) ≤ 1 ∧
    (applySchedOps dbFresh opsSample).appointments.countP (slotActive 2 600) ≤ 1 := by
  have hs : StoreOk dbFresh := by constructor <;> simp [dbFresh]
  have hn : NoDoubleBooking dbFresh := by intro did dt; simp [dbFresh]
  exact ⟨no_double_booking_after_ops dbFresh opsSample hs hn 2 500,
    no_double_booking_after_ops dbFresh opsSample hs hn 2 600⟩

/-- **C6** counterexample: the claim quantifies over EVERY existing
appointment.  Take a cancelled appointment (id 1) and a scheduled one
(id 2) of the same doctor at the same instant 500 — a state reachable by
book, cancel, book.  Rescheduling appointment 1 to its own instant 500
does not succeed: the scheduled appointment 2 (a different `_id`, so not
excluded) makes the conflict check fire. -/
theorem reschedule_self_claim_cex :
    (dbCancelPlusActive.appointments.find? (fun a => a.id == 1)).isSome = true ∧
    reschedule_appointment dbCancelPlusActive 1 500 20 =
      (.error .slotBooked, dbCancelPlusActive) :=
  ⟨rfl, rfl⟩

/-- **C6** amended: for every appointment `a` with ACTIVE status
(scheduled/confirmed), in a store with distinct `_id`s satisfying the
no-double-booking invariant, rescheduling `a` to its own date-time succeeds
(`a` itself is excluded from the conflict check, so no false conflict) and
the returned appointment carries that date-time. -/
theorem reschedule_self_active_ok (db : DB) (a : Appointment) (now : Nat)
    (hmem : a ∈ db.appointments) (hact : a.status.isActive = true)
    (hids : (db.appointments.map (fun x => x.id)).Nodup)
    (hndb : NoDoubleBooking db) :
    ∃ upd, (reschedule_appointment db a.id a.appointment_datetime now).1 = .ok upd ∧
      upd.appointment_datetime = a.appointment_datetime := by
  have hfind : db.appointments.find? (fun x => x.id == a.id) = some a :=
    find?_key_of_mem hids hmem
  have hc : db.appointments.any
      (fun x => slotActive a.doctor_id a.appointment_datetime x && !(x.id == a.id)) = false := by
    by_contra hne
    have hany : db.appointments.any
        (fun x => slotActive a.doctor_id a.appointment_datetime x && !(x.id == a.id)) = true := by
      revert hne
      cases db.appointments.any
        (fun x => slotActive a.doctor_id a.appointment_datetime x && !(x.id == a.id)) <;> simp
    obtain ⟨x, hx, hxp⟩ := List.any_eq_true.mp hany
    have h12 : slotActive a.doctor_id a.appointment_datetime x = true ∧ x.id ≠ a.id := by
      simpa using hxp
    have hne_id : x.id ≠ a.id := h12.2
    have hxa : x ≠ a := fun he => hne_id (congrArg Appointment.id he)
    have hsa : slotActive a.doctor_id a.appointment_datetime a = true := by
      simp [slotActive, hact]
    have h2 := two_le_countP hx hmem hxa h12.1 hsa
    have h3 := hndb a.doctor_id a.appointment_datetime
    omega
  exact ⟨reschedPatch a.appointment_datetime now a,
    reschedule_appointment_ok db a.id a.appointment_datetime now a hfind hc, rfl⟩

/-- Witness for the amended C6 on the single-scheduled-appointment store. -/
theorem reschedule_self_active_ok_witness :
    ∃ upd, (reschedule_appointment dbSched 5 500 20).1 = .ok upd ∧
      upd.appointment_datetime = 500 := by
  have hn : NoDoubleBooking dbSched := by
    intro did dt
    have hl : ([baseAppt].countP (slotActive did dt)) ≤ ([baseAppt] : List Appointment).length :=
      List.countP_le_length _
    simpa [dbSched] using hl
  exact reschedule_self_active_ok dbSched baseAppt 20 (by simp [dbSched]) rfl
    (by simp [dbSched]) hn

/-- **C7** counterexample: with an empty store (so patient id 1 matches no
patient document), every listing operation returns a SUCCESS result with an
empty list instead of failing with the not-found error the claim demands. -/
theorem unknown_patient_listing_cex :
    emptyDB.patients.find? (fun p => p.id == 1) = none ∧
    get_my_appointments emptyDB 1 none true 0 = .ok [] ∧
    get_medical_history emptyDB 1 10 = .ok [] ∧
    get_prescriptions emptyDB 1 false = .ok [] ∧
    get_lab_reports emptyDB 1 10 = .ok [] ∧
    get_appointment_reminders emptyDB 1 7 0 = .ok [] :=
  ⟨rfl, rfl, rfl, rfl, rfl, rfl⟩

/-- **C7** amended: every lookup of a single document by id fails with the
structured not-found error when that document is absent — `get_patient_profile`,
`get_health_summary` and `book_appointment`'s patient lookup for an absent
patient id; `get_doctor_info` and `book_appointment`'s doctor lookup for an
absent doctor id; `reschedule_appointment`'s and `cancel_appointment`'s
appointment lookup for an absent appointment id.  The five listing
operations, by contrast, perform no patient-existence check at all: for an
unknown patient id they return a success result carrying whatever documents
match the filter (the empty list when none do), never a not-found error. -/
theorem unknown_patient_behavior (db : DB) (pid did aid : DocId)
    (hp : db.patients.find? (fun p => p.id == pid) = none)
    (hd : db.doctors.find? (fun d => d.id == did) = none)
    (ha : db.appointments.find? (fun a => a.id == aid) = none) :
    (∀ st up now, ∃ l, get_my_appointments db pid st up now = .ok l) ∧
    (∀ limit, ∃ l, get_medical_history db pid limit = .ok l) ∧
    (∀ ao, ∃ l, get_prescriptions db pid ao = .ok l) ∧
    (∀ limit, ∃ l, get_lab_reports db pid limit = .ok l) ∧
    (∀ days now, ∃ l, get_appointment_reminders db pid days now = .ok l) ∧
    get_patient_profile db pid = .error (.patientNotFound pid) ∧
    get_doctor_info db did = .error (.doctorNotFound did) ∧
    (∀ now, get_health_summary db pid now = .error (.patientNotFound pid)) ∧
    (∀ d dt r s now, (book_appointment db pid d dt r s now).1 =
      .error (.patientNotFound pid)) ∧
    (∀ pt dt r s now, (db.patients.find? (fun p => p.id == pt)).isSome = true →
      (book_appointment db pt did dt r s now).1 = .error (.doctorNotFound did)) ∧
    (∀ ndt now, (reschedule_appointment db aid ndt now).1 =
      .error (.appointmentNotFound aid)) ∧
    (∀ r now, (cancel_appointment db aid r now).1 =
      .error (.appointmentNotFound aid)) := by
  refine ⟨fun st up now => ⟨_, rfl⟩, fun limit => ⟨_, rfl⟩, fun ao => ⟨_, rfl⟩,
    fun limit => ⟨_, rfl⟩, fun days now => ⟨_, rfl⟩, ?_, ?_, ?_, ?_, ?_, ?_, ?_⟩
  · unfold get_patient_profile
    rw [hp]
  · unfold get_doctor_info
    rw [hd]
  · intro now
    unfold get_health_summary
    rw [hp]
  · intro d dt r s now
    unfold book_appointment
    rw [hp]
  · intro pt dt r s now hpt
    obtain ⟨p0, hp0⟩ := Option.isSome_iff_exists.mp hpt
    unfold book_appointment
    simp only [hp0, hd]
  · intro ndt now
    unfold reschedule_appointment
    rw [ha]
  · intro r now
    unfold cancel_appointment
    rw [ha]

/-- Witness for the amended C7: empty store for the absent ids, and the
conflict store for the existing-patient / absent-doctor booking path. -/
theorem unknown_patient_behavior_witness :
    get_patient_profile emptyDB 1 = .error (.patientNotFound 1) ∧
    get_doctor_info emptyDB 2 = .error (.doctorNotFound 2) ∧
    (reschedule_appointment emptyDB 5 600 20).1 = .error (.appointmentNotFound 5) ∧
    (cancel_appointment emptyDB 5 none 20).1 = .error (.appointmentNotFound 5) ∧
    (book_appointment dbConflict 1 9 500 "flu" none 40).1 = .error (.doctorNotFound 9) ∧
    (∃ l, get_my_appointments emptyDB 1 none true 0 = .ok l) :=
  ⟨(unknown_patient_behavior emptyDB 1 2 5 rfl rfl rfl).2.2.2.2.2.1,
    (unknown_patient_behavior emptyDB 1 2 5 rfl rfl rfl).2.2.2.2.2.2.1,
    (unknown_patient_behavior emptyDB 1 2 5 rfl rfl rfl).2.2.2.2.2.2.2.2.2.2.1 600 20,
    (unknown_patient_behavior emptyDB 1 2 5 rfl rfl rfl).2.2.2.2.2.2.2.2.2.2.2 none 20,
    (unknown_patient_behavior dbConflict 3 9 7 rfl rfl rfl).2.2.2.2.2.2.2.2.2.1
      1 500 "flu" none 40 rfl,
    (unknown_patient_behavior emptyDB 1 2 5 rfl rfl rfl).1 none true 0⟩

/-- **C8**: `get_health_summary` fails with the not-found error when the
patient is absent; otherwise it returns a summary whose `total_visits`
counts the patient's medical records, whose `upcoming_appointments` counts
the patient's active-status appointments not earlier than `now`, whose
`active_prescriptions` counts the patient's prescriptions with status
"active", and whose `last_visit` is empty exactly when the patient has no
medical record and otherwise is a medical record of the patient whose visit
date is maximal among the patient's records. -/
theorem health_summary_spec (db : DB) (pid : DocId) (now : Nat) :
    (db.patients.find? (fun p => p.id == pid) = none →
      get_health_summary db pid now = .error (.patientNotFound pid)) ∧
    (∀ pt, db.patients.find? (fun p => p.id == pid) = some pt →
      ∃ s, get_health_summary db pid now = .ok s ∧
        s.patient_name = pt.name ∧
        s.total_visits = db.medical_records.countP (fun r => r.patient_id == pid) ∧
        s.upcoming_appointments = db.appointments.countP (fun a =>
          a.patient_id == pid && decide (now ≤ a.appointment_datetime) && a.status.isActive) ∧
        s.active_prescriptions = db.prescriptions.countP (fun pr =>
          pr.patient_id == pid && pr.status == "active") ∧
        (s.last_visit = none ↔
          db.medical_records.filter (fun r => r.patient_id == pid) = []) ∧
        (∀ r, s.last_visit = some r →
          (r ∈ db.medical_records ∧ r.patient_id = pid) ∧
          ∀ q ∈ db.medical_records, q.patient_id = pid →
            q.visit_date ≤ r.visit_date)) := by
  constructor
  · intro h
    unfold get_health_summary
    rw [h]
  · intro pt hpt
    refine ⟨healthSummary db pid now pt, ?_, rfl, rfl, rfl, rfl, ?_, ?_⟩
    · unfold get_health_summary
      rw [hpt]
    · show (sortByDesc (fun r => r.visit_date)
        (db.medical_records.filter (fun r => r.patient_id == pid))).head? = none ↔ _
      rw [List.head?_eq_none_iff, sortByDesc_eq_nil_iff]
    · intro r hr
      have hr' : (sortByDesc (fun mr => mr.visit_date)
          (db.medical_records.filter (fun mr => mr.patient_id == pid))).head? = some r := hr
      obtain ⟨hmem, hbound⟩ := sortByDesc_head_max r hr'
      have hmf := List.mem_filter.mp hmem
      refine ⟨⟨hmf.1, by simpa using hmf.2⟩, ?_⟩
      intro q hq hqpid
      exact hbound q (List.mem_filter.mpr ⟨hq, by simp [hqpid]⟩)

/-- Witness for C8: the spec §8 scenario (one record, one active
prescription, one future scheduled appointment) reports 1 / 1 / 1 and the
record as the last visit. -/
theorem health_summary_spec_witness :
    ∃ s, get_health_summary dbSummary 1 400 = .ok s ∧
      s.total_visits = 1 ∧ s.upcoming_appointments = 1 ∧ s.active_prescriptions = 1 := by
  obtain ⟨s, hs, _, h2, h3, h4, _, _⟩ :=
    (health_summary_spec dbSummary 1 400).2 samplePatient rfl
  refine ⟨s, hs, ?_, ?_, ?_⟩
  · rw [h2]; rfl
  · rw [h3]; rfl
  · rw [h4]; rfl

/-- **C9**: `update_patient_profile` only ever touches the patients
collection: for every state and all arguments, every document of the
appointments collection — its denormalized `patient_name` and `doctor_name`
included — is exactly what it was before the call. -/
theorem update_profile_leaves_appointments (db : DB) (pid : DocId)
    (email contact address emergency_contact allergies : Option String) (now : Nat) :
    ((update_patient_profile db pid email contact address emergency_contact allergies now).2).appointments
      = db.appointments := by
  rcases update_patient_profile_snd db pid email contact address emergency_contact allergies now
    with heq | heq <;> rw [heq]

/-- **C10**: the four `to_list(length=100)` read endpoints return at most
100 entries whatever the store holds; matches past the first 100 in query
order are dropped. -/
theorem listing_capped_at_100 (db : DB) (pid : DocId) (st : Option Status) (up : Bool)
    (now : Nat) (ao : Bool) (days : Nat) (sp dep nm : Option String) :
    (∃ l, get_my_appointments db pid st up now = .ok l ∧ l.length ≤ 100) ∧
    (∃ l, get_appointment_reminders db pid days now = .ok l ∧ l.length ≤ 100) ∧
    (∃ l, get_prescriptions db pid ao = .ok l ∧ l.length ≤ 100) ∧
    (∃ l, search_doctors db sp dep nm = .ok l ∧ l.length ≤ 100) := by
  refine ⟨⟨_, rfl, ?_⟩, ⟨_, rfl, ?_⟩, ⟨_, rfl, ?_⟩, ⟨_, rfl, ?_⟩⟩ <;>
    exact List.length_take_le _ _
